import Mathlib

/-!
Shallow embedding of the STOICISM passage knowledge engine
(`stoic-knowledge-base`): the paragraph-merging chunker
(`scripts/chunk_passages.py`), the rule-based and provider-based taggers
(`scripts/tag_rules.py`, `scripts/tag_openai.py`) and the retrieval /
profile-matching logic of `api/stoic_api.py`.

Python strings are modelled by Lean `String`; Python `str.split()`,
`str.lower()`, substring tests (`in`) and list/dict operations are given
explicit executable models below.  Python float arithmetic in the match
scorer is modelled over `ℚ`.
-/

namespace Stoic

/-! ### Python string primitives -/

/-- Test that the first char list starts the second (first argument is the
needle). -/
def listStartsWith : List Char → List Char → Bool
  | [], _ => true
  | _ :: _, [] => false
  | a :: as, b :: bs => a = b && listStartsWith as bs

/-- Python substring test `needle in hay`, on char lists. -/
def listHasSub (needle : List Char) : List Char → Bool
  | [] => needle.isEmpty
  | c :: cs => listStartsWith needle (c :: cs) || listHasSub needle cs

/-- Python `needle in hay` on strings. -/
def strContains (hay needle : String) : Bool :=
  listHasSub needle.toList hay.toList

/-- Python `s.lower()` (ASCII). -/
def lowerStr (s : String) : String := ⟨s.toList.map Char.toLower⟩

/-- Helper for `pyWords`: accumulate the current word (reversed) while
scanning; mirrors the maximal-munch behaviour of Python `str.split()`. -/
def splitWordsAux : List Char → List Char → List (List Char)
  | [], acc => if acc = [] then [] else [acc.reverse]
  | c :: cs, acc =>
    if c.isWhitespace then
      (if acc = [] then [] else [acc.reverse]) ++ splitWordsAux cs []
    else splitWordsAux cs (c :: acc)

/-- Python `s.split()`: whitespace-separated words, empties dropped. -/
def pyWords (s : String) : List String :=
  (splitWordsAux s.toList []).map fun w => ⟨w⟩

/-- Python `len(s.split())`. -/
def wordCount (s : String) : Nat := (splitWordsAux s.toList []).length

/-! ### `chunk_by_paragraph` (scripts/chunk_passages.py, lines 84-114)

A paragraph is represented by the word list produced by Python
`para.split()`; a whitespace-only paragraph is `[]` (the code strips it and
skips it).  A chunk `" ".join(current_chunk)` is represented by the
concatenation of the word lists of its paragraphs, so a chunk's
`len(chunk.split())` is the `List.length` of its representation. -/

/-- One iteration of the `for para in paragraphs` loop: given the pending
`current_chunk` (as words) and `current_word_count`, returns the chunks
yielded during this iteration and the updated pending state. -/
def processPara (min_words max_words : Nat) (cur : List String) (cnt : Nat)
    (p : List String) : List (List String) × List String × Nat :=
  if p = [] then ([], cur, cnt)
  else
    let pw := p.length
    let (out1, cur1, cnt1) :=
      if max_words < cnt + pw ∧ cur ≠ [] then ([cur], ([] : List String), 0)
      else ([], cur, cnt)
    let cur2 := cur1 ++ p
    let cnt2 := cnt1 + pw
    if min_words ≤ cnt2 then (out1 ++ [cur2], [], 0)
    else (out1, cur2, cnt2)

/-- The chunking loop, plus the final `if current_chunk: yield` flush. -/
def chunkLoop (min_words max_words : Nat) :
    List (List String) → List String → Nat → List (List String)
  | [], cur, _ => if cur = [] then [] else [cur]
  | p :: ps, cur, cnt =>
    let r := processPara min_words max_words cur cnt p
    r.1 ++ chunkLoop min_words max_words ps r.2.1 r.2.2

/-- `chunk_by_paragraph(text, min_words, max_words)`; `text` is the list of
paragraphs obtained from `text.split("\n\n")`, each given by its words. -/
def chunk_by_paragraph (paras : List (List String)) (min_words max_words : Nat) :
    List (List String) :=
  chunkLoop min_words max_words paras [] 0

/-- Claim C1's property of a chunk list: every chunk except possibly the
last has word count in `[min_words, max_words]`. -/
def chunkBoundsOK (min_words max_words : Nat) (chunks : List (List String)) : Bool :=
  chunks.dropLast.all fun c => min_words ≤ c.length && c.length ≤ max_words


/-! ### Data model (scripts/models.py)

Only the fields the claims touch are carried; `source`, `translation`,
`text_normalized` and `embedding` play no role in any claim and are
omitted from the `Passage` record.  The three metadata scores are `Int`
(pydantic validates them into `[1,10]`; the validity predicate is stated
separately where a claim needs it). -/

inductive StressLevel
  | low | normal | elevated | high
deriving DecidableEq, Repr

inductive TimeOfDay
  | morning | midday | evening | night
deriving DecidableEq, Repr

inductive Difficulty
  | beginner | intermediate | advanced
deriving DecidableEq, Repr

inductive JourneyStage
  | newcomer | building_habits | deepening | crisis
deriving DecidableEq, Repr

structure PassageTags where
  primary_concepts : List String
  virtues : List String
  practices : List String
  situations : List String
  emotions : List String
deriving DecidableEq, Repr

/-- The all-empty `PassageTags()` default. -/
def PassageTags.empty : PassageTags := ⟨[], [], [], [], []⟩

structure HealthContext where
  stress_levels : List StressLevel
  activity_states : List String
  times_of_day : List TimeOfDay
deriving DecidableEq, Repr

/-- The all-empty `HealthContext()` default. -/
def HealthContext.empty : HealthContext := ⟨[], [], []⟩

structure JourneyContext where
  stages : List JourneyStage
  difficulty : Difficulty
deriving DecidableEq, Repr

structure PassageMetadata where
  quotability : Int
  actionability : Int
  comfort : Int
  word_count : Nat
  character_count : Nat
deriving DecidableEq, Repr

structure Passage where
  id : String
  text : String
  tags : PassageTags
  health_context : HealthContext
  journey_context : JourneyContext
  metadata : PassageMetadata
deriving DecidableEq, Repr

/-! ### Keyword tables (scripts/tag_rules.py, lines 34-161)

The Python dicts are insertion-ordered; they are modelled as association
lists in the declared order. -/

def CONCEPT_KEYWORDS : List (String × List String) := [
  ("dichotomy_of_control", ["control", "power over", "in our power",
    "not in our power", "up to us", "not up to us", "depends on us",
    "our choice", "within our control", "outside our control",
    "cannot control"]),
  ("inner_citadel", ["inner", "citadel", "fortress", "mind", "soul",
    "ruling", "governing", "retreat", "within yourself", "inside"]),
  ("premeditatio_malorum", ["anticipate", "prepare", "expect", "foresee",
    "imagine", "what if", "might happen", "could happen", "worst"]),
  ("memento_mori", ["death", "die", "dying", "mortal", "mortality",
    "finite", "last day", "end", "life is short", "brief", "fleeting"]),
  ("amor_fati", ["fate", "accept", "acceptance", "embrace", "love",
    "welcome", "providence", "universe", "nature", "meant to be"]),
  ("impermanence", ["change", "changing", "pass", "passing", "temporary",
    "transient", "nothing lasts", "all things", "flow", "flux", "moment"]),
  ("present_moment", ["present", "now", "today", "this moment", "current",
    "immediate", "at hand", "before you"]),
  ("living_according_to_nature", ["nature", "natural",
    "according to nature", "rational", "reason", "logos", "universal",
    "cosmos"])]

def VIRTUE_KEYWORDS : List (String × List String) := [
  ("wisdom", ["wisdom", "wise", "knowledge", "understand", "judgment",
    "discern", "learn", "truth", "reason", "rational"]),
  ("courage", ["courage", "brave", "bravery", "fear", "fearless", "bold",
    "endure", "persist", "strength", "fortitude", "stand firm"]),
  ("justice", ["justice", "just", "fair", "duty", "obligation", "right",
    "wrong", "others", "society", "fellow", "citizen"]),
  ("temperance", ["temperance", "moderate", "moderation", "restrain",
    "control", "self-control", "discipline", "excess", "pleasure",
    "desire"])]

def PRACTICE_KEYWORDS : List (String × List String) := [
  ("morning_reflection", ["morning", "dawn", "arise", "wake",
    "begin the day", "start"]),
  ("evening_review", ["evening", "night", "end of day", "review",
    "examine", "reflect", "sleep", "bed"]),
  ("journaling", ["write", "record", "note", "journal", "yourself"]),
  ("self_examination", ["examine", "ask yourself", "question", "reflect",
    "consider", "think about", "look within"])]

def SITUATION_KEYWORDS : List (String × List String) := [
  ("difficult_people", ["people", "others", "man", "men", "someone",
    "they", "difficult", "annoying", "fool", "ignorant", "enemy"]),
  ("anger_management", ["anger", "angry", "rage", "fury", "temper",
    "irritate", "provoke", "offend", "insult"]),
  ("anxiety", ["anxious", "anxiety", "worry", "fear", "troubled",
    "disturbed", "concern", "uneasy", "restless"]),
  ("grief", ["grief", "grieve", "loss", "lost", "mourn", "sorrow",
    "sadness", "death of", "passed away"]),
  ("failure", ["fail", "failure", "mistake", "error", "wrong", "setback",
    "disappoint", "fall short"]),
  ("success", ["success", "achieve", "accomplish", "triumph", "victory",
    "praise", "fame", "honor"]),
  ("leadership", ["lead", "leader", "rule", "govern", "command",
    "authority", "power", "emperor", "king"]),
  ("health_challenges", ["sick", "illness", "disease", "pain", "body",
    "health", "suffer", "affliction"]),
  ("time_management", ["time", "busy", "hurry", "waste", "spend",
    "life is short", "procrastinate", "delay"]),
  ("finding_purpose", ["purpose", "meaning", "why", "reason", "goal",
    "aim", "direction", "calling"])]

def EMOTION_KEYWORDS : List (String × List String) := [
  ("anger", ["anger", "angry", "rage", "fury", "wrath", "irritate"]),
  ("fear", ["fear", "afraid", "terror", "dread", "scary", "frighten"]),
  ("anxiety", ["anxious", "anxiety", "worry", "worried", "nervous"]),
  ("grief", ["grief", "sorrow", "mourn", "sad", "sadness", "loss"]),
  ("joy", ["joy", "happy", "happiness", "delight", "pleasure", "glad"]),
  ("frustration", ["frustrate", "annoyed", "irritate", "vexed"]),
  ("peace", ["peace", "calm", "tranquil", "serene", "quiet", "still"])]

/-! ### Rule-based tagger (scripts/tag_rules.py, lines 168-361) -/

/-- `find_keywords(text, keyword_dict)`: the categories whose keyword list
has a (case-insensitive) substring hit in the text, in table order; the
inner `break` makes one hit per category enough. -/
def find_keywords (text : String) (keyword_dict : List (String × List String)) :
    List String :=
  let text_lower := lowerStr text
  keyword_dict.filterMap fun ck =>
    if ck.2.any (fun k => strContains text_lower (lowerStr k)) then some ck.1
    else none

/-- `assess_difficulty(text)`. -/
def assess_difficulty (text : String) : Difficulty :=
  let text_lower := lowerStr text
  let advanced_terms := ["indifferent", "preferred", "logos", "hegemonikon",
    "prohairesis", "oikeiosis", "cosmopolitan", "determinism"]
  let intermediate_terms := ["virtue", "rational", "nature", "providence",
    "soul", "judgment", "impression", "assent"]
  let advanced_count := (advanced_terms.filter fun t => strContains text_lower t).length
  let intermediate_count :=
    (intermediate_terms.filter fun t => strContains text_lower t).length
  if 2 ≤ advanced_count then Difficulty.advanced
  else if 2 ≤ intermediate_count ∨ 1 ≤ advanced_count then Difficulty.intermediate
  else Difficulty.beginner

/-- Regex word characters, for the `\b` boundaries in the quotability
patterns (ASCII `\w`). -/
def isWordChar (c : Char) : Bool := c.isAlphanum || c = '_'

/-- Occurrence of `pat` at the head of `hay` with word boundaries on both
sides; `prev` is the character immediately before `hay`, if any.  All the
source patterns begin and end with word characters, for which this is the
meaning of the surrounding `\b`. -/
def boundedHere (pat : List Char) (prev : Option Char) (hay : List Char) : Bool :=
  listStartsWith pat hay &&
    (match prev with
      | none => true
      | some c => !isWordChar c) &&
    (match hay.drop pat.length with
      | [] => true
      | d :: _ => !isWordChar d)

def boundedSearchAux (pat : List Char) : Option Char → List Char → Bool
  | prev, [] => boundedHere pat prev []
  | prev, c :: cs => boundedHere pat prev (c :: cs) || boundedSearchAux pat (some c) cs

/-- Model of `re.search(r"\b" + pat + r"\b", s)` as a Bool, for patterns
made of word characters and spaces. -/
def reSearchWord (pat : String) (s : String) : Bool :=
  boundedSearchAux pat.toList none s.toList

/-- `assess_quotability(text)`. -/
def assess_quotability (text : String) : Int :=
  let score : Int := 5
  let word_count := wordCount text
  let score := if word_count < 50 then score + 2
    else if word_count < 100 then score + 1
    else if 200 < word_count then score - 2
    else score
  let advice_patterns := ["do not", "never", "always", "must", "should",
    "remember", "let", "begin"]
  let score :=
    if advice_patterns.any (fun p => reSearchWord p (lowerStr text)) then score + 1
    else score
  let score := if strContains text "?" then score + 1 else score
  min 10 (max 1 score)

/-- `assess_comfort(text)`. -/
def assess_comfort (text : String) : Int :=
  let text_lower := lowerStr text
  let comfort_words := ["peace", "calm", "gentle", "accept", "rest", "ease",
    "content", "tranquil", "serene", "grateful"]
  let challenge_words := ["must", "should", "stop", "cease", "wrong",
    "foolish", "lazy", "weak", "excuse", "complain"]
  let comfort_score : Int :=
    (comfort_words.filter fun w => strContains text_lower w).length
  let challenge_score : Int :=
    (challenge_words.filter fun w => strContains text_lower w).length
  min 10 (max 1 (5 + comfort_score - challenge_score))

/-- `assess_actionability(text)`. -/
def assess_actionability (text : String) : Int :=
  let text_lower := lowerStr text
  let action_words := ["do", "practice", "try", "begin", "start", "stop",
    "when you", "if you", "every day", "each morning", "remind yourself",
    "tell yourself", "ask yourself"]
  let hits : Int := ((action_words.filter fun w => strContains text_lower w).length : Nat)
  min 10 (max 1 (5 + hits))

/-- Helper for `pySet`: drop elements already seen, keep first occurrences. -/
def pySetAux {α : Type} [DecidableEq α] (seen : List α) : List α → List α
  | [] => []
  | a :: t => if a ∈ seen then pySetAux seen t else a :: pySetAux (a :: seen) t

/-- Model of Python `list(set(l))`: duplicates removed.  CPython's set
iteration order is implementation-defined; first occurrences are kept here.
No claim depends on the order, only on membership and emptiness. -/
def pySet {α : Type} [DecidableEq α] (l : List α) : List α := pySetAux [] l

/-- `map_to_health_context(tags)` (lines 283-324): the sequential
`extend`/`append` calls are modelled by the chain `stress1..stress3` /
`times1..times4`, followed by the empty-default and `list(set(...))`. -/
def map_to_health_context (tags : PassageTags) : HealthContext :=
  let stress1 : List StressLevel :=
    if ["anger", "anxiety", "fear"].any (fun e => tags.emotions.contains e) then
      [StressLevel.elevated, StressLevel.high]
    else []
  let stress2 :=
    if ["anger_management", "anxiety", "difficult_people"].any
        (fun s => tags.situations.contains s) then
      stress1 ++ [StressLevel.elevated, StressLevel.high]
    else stress1
  let stress3 :=
    if tags.emotions.contains "peace" || tags.primary_concepts.contains "acceptance" then
      stress2 ++ [StressLevel.low]
    else stress2
  let stress_levels := if stress3 = [] then [StressLevel.normal] else stress3
  let times1 : List TimeOfDay :=
    if tags.practices.contains "morning_reflection" then [TimeOfDay.morning] else []
  let times2 :=
    if tags.practices.contains "evening_review" then times1 ++ [TimeOfDay.evening]
    else times1
  let times3 :=
    if tags.primary_concepts.contains "memento_mori" then
      times2 ++ [TimeOfDay.evening, TimeOfDay.night]
    else times2
  let times4 :=
    if ["premeditatio_malorum", "present_moment"].any
        (fun c => tags.primary_concepts.contains c) then
      times3 ++ [TimeOfDay.morning]
    else times3
  let times_of_day :=
    if times4 = [] then [TimeOfDay.morning, TimeOfDay.midday, TimeOfDay.evening]
    else times4
  { stress_levels := pySet stress_levels
    activity_states := []
    times_of_day := pySet times_of_day }

/-- The Gutenberg-boilerplate test opening `tag_passage` (lines 331-333). -/
def gutenbergBoilerplate (text : String) : Bool :=
  strContains text "Project Gutenberg" || strContains text "START OF" ||
    strContains text "END OF"

/-- `tag_passage(passage)` (lines 327-361): rule-based tagging; field
mutations are modelled by a structure update. -/
def tag_passage (passage : Passage) : Passage :=
  let text := passage.text
  if gutenbergBoilerplate text then passage
  else
    let tags : PassageTags :=
      { primary_concepts := (find_keywords text CONCEPT_KEYWORDS).take 3
        virtues := (find_keywords text VIRTUE_KEYWORDS).take 2
        practices := (find_keywords text PRACTICE_KEYWORDS).take 2
        situations := (find_keywords text SITUATION_KEYWORDS).take 3
        emotions := (find_keywords text EMOTION_KEYWORDS).take 3 }
    let difficulty := assess_difficulty text
    { passage with
        tags := tags
        metadata := { passage.metadata with
          quotability := assess_quotability text
          actionability := assess_actionability text
          comfort := assess_comfort text }
        journey_context :=
          { stages :=
              if difficulty = Difficulty.beginner then [JourneyStage.newcomer]
              else [JourneyStage.building_habits]
            difficulty := difficulty }
        health_context := map_to_health_context tags }

/-! ### Provider-based tagging (scripts/tag_openai.py, lines 101-136) -/

/-- Parsed JSON tag object returned by the external provider.  A field is
`none` when the key is absent from the dict.  A JSON string value for
`stress_levels` / `times_of_day` (which the code wraps into a one-element
list) is modelled by the corresponding singleton list. -/
structure TagDict where
  primary_concepts : Option (List String)
  virtues : Option (List String)
  practices : Option (List String)
  situations : Option (List String)
  emotions : Option (List String)
  stress_levels : Option (List String)
  times_of_day : Option (List String)
  difficulty : Option String
  quotability : Option Int
  actionability : Option Int
  comfort : Option Int
deriving DecidableEq, Repr

/-- Membership test `s in StressLevel._value2member_map_` plus the
`StressLevel(s)` conversion. -/
def parseStressLevel : String → Option StressLevel
  | "low" => some StressLevel.low
  | "normal" => some StressLevel.normal
  | "elevated" => some StressLevel.elevated
  | "high" => some StressLevel.high
  | _ => none

/-- Membership test `t in TimeOfDay._value2member_map_` plus the
`TimeOfDay(t)` conversion. -/
def parseTimeOfDay : String → Option TimeOfDay
  | "morning" => some TimeOfDay.morning
  | "midday" => some TimeOfDay.midday
  | "evening" => some TimeOfDay.evening
  | "night" => some TimeOfDay.night
  | _ => none

/-- Membership test `diff in Difficulty._value2member_map_` plus the
`Difficulty(diff)` conversion. -/
def parseDifficulty : String → Option Difficulty
  | "beginner" => some Difficulty.beginner
  | "intermediate" => some Difficulty.intermediate
  | "advanced" => some Difficulty.advanced
  | _ => none

/-- `apply_tags(passage, tags)`: `none` stands for the empty dict `{}`
produced on provider/parse failure (the `if not tags` early return). -/
def apply_tags (passage : Passage) (tags : Option TagDict) : Passage :=
  match tags with
  | none => passage
  | some t =>
    let newTags : PassageTags :=
      { primary_concepts := (t.primary_concepts.getD []).take 3
        virtues := (t.virtues.getD []).take 2
        practices := (t.practices.getD []).take 2
        situations := (t.situations.getD []).take 3
        emotions := (t.emotions.getD []).take 3 }
    let stress := t.stress_levels.getD ["normal"]
    let times := t.times_of_day.getD ["morning"]
    let diff := t.difficulty.getD "beginner"
    { passage with
        tags := newTags
        health_context :=
          { stress_levels := stress.filterMap parseStressLevel
            activity_states := []
            times_of_day := times.filterMap parseTimeOfDay }
        journey_context :=
          { stages :=
              if diff = "beginner" then [JourneyStage.newcomer]
              else [JourneyStage.building_habits]
            difficulty := (parseDifficulty diff).getD Difficulty.beginner }
        metadata := { passage.metadata with
          quotability := t.quotability.getD 5
          actionability := t.actionability.getD 5
          comfort := t.comfort.getD 5 } }

/-! ### Concrete passages used by the scenario and frame claims -/

/-- The scenario text of claim C5. -/
def c5text : String :=
  "It is not things that disturb us, but our judgments about things. When you are anxious, examine your judgment first."

/-- The passage the chunk-then-tag pipeline builds from `c5text`: empty
tags, empty health context, beginner journey context, default scores. -/
def c5passage : Passage :=
  { id := "test_c5"
    text := c5text
    tags := PassageTags.empty
    health_context := HealthContext.empty
    journey_context := { stages := [], difficulty := Difficulty.beginner }
    metadata := { quotability := 5, actionability := 5, comfort := 5,
                  word_count := 20, character_count := c5text.length } }

/-- A freshly chunked passage carrying Project Gutenberg boilerplate. -/
def gutenbergPassage : Passage :=
  { id := "test_gutenberg"
    text := "This eBook is produced by Project Gutenberg volunteers."
    tags := PassageTags.empty
    health_context := HealthContext.empty
    journey_context := { stages := [], difficulty := Difficulty.beginner }
    metadata := { quotability := 5, actionability := 5, comfort := 5,
                  word_count := 8, character_count := 55 } }

/-- Model of Python `" ".join(words)`. -/
def joinWordsAux : List String → List Char
  | [] => []
  | [w] => w.toList
  | w :: ws => w.toList ++ ' ' :: joinWordsAux ws

def joinWords (ws : List String) : String := ⟨joinWordsAux ws⟩



/-- A concrete provider tag dict with a valid stress level and no
`times_of_day` key, used to witness the amended C3. -/
def tC3 : TagDict :=
  { primary_concepts := some ["memento_mori"]
    virtues := none
    practices := none
    situations := some ["anxiety"]
    emotions := some ["fear"]
    stress_levels := some ["high"]
    times_of_day := none
    difficulty := some "beginner"
    quotability := some 8
    actionability := none
    comfort := some 5 }



/-! ### Contextual retrieval (api/stoic_api.py, lines 126-219)

The claims C2 and C4 concern the post-search part of
`get_contextual_quote`: the candidate rows returned by the
`match_passages` vector search are an input here, and the handler is a
function from them (plus the request's `philosopher_id` and
`stress_level`) to an HTTP outcome.  `Except HTTPEx` models raising
`HTTPException`; the crucial point is that the whole body sits in a
`try: ... except Exception:` block, and FastAPI's `HTTPException` derives
from `Exception`, so even the 404 raised for an empty candidate set is
caught and re-raised as a 500 "Search error".  Similarity scores are
modelled over `ℚ`. -/

/-- One row of the `match_passages` RPC result. -/
structure Row where
  id : String
  text : String
  philosopher_id : String
  work_id : String
  tags : PassageTags
  similarity : ℚ
deriving DecidableEq, Repr

structure QuoteResponse where
  id : String
  text : String
  philosopher : String
  work : String
  tags : PassageTags
  similarity : Option ℚ
deriving DecidableEq, Repr

/-- A raised `HTTPException(status_code, detail)`. -/
structure HTTPEx where
  status : Nat
  detail : String
deriving DecidableEq, Repr

/-- Python `str(l)` for a list of strings: `['a', 'b']`. -/
def pyReprStrList (l : List String) : String :=
  "[" ++ String.intercalate ", " (l.map fun s => "'" ++ s ++ "'") ++ "]"

/-- Python `str(d)` for the tags dict (keys in the schema's insertion
order). -/
def pyReprTags (t : PassageTags) : String :=
  "\x7b'primary_concepts': " ++ pyReprStrList t.primary_concepts ++
    ", 'virtues': " ++ pyReprStrList t.virtues ++
    ", 'practices': " ++ pyReprStrList t.practices ++
    ", 'situations': " ++ pyReprStrList t.situations ++
    ", 'emotions': " ++ pyReprStrList t.emotions ++ "\x7d"

/-- The stress-level predicate of lines 193-197:
`stress_level in str(tags["emotions"]) or "normal" in str(tags)`. -/
def stressMatch (stress_level : String) (m : Row) : Bool :=
  strContains (pyReprStrList m.tags.emotions) stress_level ||
    strContains (pyReprTags m.tags) "normal"

/-- Python `str.title()` (ASCII): a letter after a non-letter is
uppercased, other letters lowercased. -/
def pyTitleAux : Bool → List Char → List Char
  | _, [] => []
  | prevAlpha, c :: cs =>
    (if c.isAlpha then (if prevAlpha then c.toLower else c.toUpper) else c) ::
      pyTitleAux c.isAlpha cs

def pyTitle (s : String) : String := ⟨pyTitleAux false s.toList⟩

/-- Python `s.replace("_", " ")`. -/
def replaceUnderscore (s : String) : String :=
  ⟨s.toList.map fun c => if c = '_' then ' ' else c⟩

/-- Lines 188-189: `if request.philosopher_id and matches:` — Python
truthiness makes `None` and `""` skip the filter, as does an empty
candidate list. -/
def philFiltered (pid? : Option String) (cands : List Row) : List Row :=
  match pid? with
  | none => cands
  | some pid =>
    if pid ≠ "" ∧ cands ≠ [] then cands.filter fun m => m.philosopher_id = pid
    else cands

/-- Lines 192-199: the stress-level filter with its non-empty fallback
(the filtered list is kept only when it is itself non-empty). -/
def stressFilterStage (stress_level : String) (cands : List Row) : List Row :=
  if cands ≠ [] then
    if cands.filter (stressMatch stress_level) ≠ [] then
      cands.filter (stressMatch stress_level)
    else cands
  else cands

/-- Lines 209-216: building the `QuoteResponse` from the top row. -/
def rowToResponse (m : Row) : QuoteResponse :=
  { id := m.id
    text := m.text
    philosopher := pyTitle (replaceUnderscore m.philosopher_id)
    work := pyTitle (replaceUnderscore m.work_id)
    tags := m.tags
    similarity := some m.similarity }

/-- The body of the `try` block after the vector search: filter stages,
`matches[:5]`, the 404 on an empty result, and the response from the top
match. -/
def quoteTryBody (pid? : Option String) (stress_level : String)
    (matches0 : List Row) : Except HTTPEx QuoteResponse :=
  let matches1 := philFiltered pid? matches0
  let matches2 := stressFilterStage stress_level matches1
  match matches2.take 5 with
  | [] => Except.error ⟨404, "No matching quotes found"⟩
  | top :: _ => Except.ok (rowToResponse top)

/-- `get_contextual_quote` after the vector search: the surrounding
`except Exception as e: raise HTTPException(500, f"Search error: \x7be\x7d")`
catches every exception raised in the body — the 404 `HTTPException`
included (Starlette's `HTTPException.__str__` is `"<status>: <detail>"`). -/
def get_contextual_quote (pid? : Option String) (stress_level : String)
    (matches0 : List Row) : Except HTTPEx QuoteResponse :=
  match quoteTryBody pid? stress_level matches0 with
  | Except.ok r => Except.ok r
  | Except.error e =>
    Except.error ⟨500, "Search error: " ++ toString e.status ++ ": " ++ e.detail⟩

/-- A candidate row with no tags, on which every stress-level filter
fails; used by the C4 witness. -/
def rC4 : Row :=
  { id := "r1"
    text := "some text"
    philosopher_id := "seneca"
    work_id := "letters_to_lucilius"
    tags := PassageTags.empty
    similarity := (3 : ℚ) / 10 }

/-! ### Profile matching (api/stoic_api.py, lines 222-292) -/

structure OnboardingAnswer where
  question_id : String
  answer : String
deriving DecidableEq, Repr

structure Philosopher where
  id : String
  name : String
  matching_criteria : List String
deriving DecidableEq, Repr

/-- Python dict assignment `m[k] = v`: update in place when the key
exists (keeping its position), else append. -/
def dictInsert {β : Type} (m : List (String × β)) (k : String) (v : β) :
    List (String × β) :=
  if m.any (fun q => q.1 = k) then
    m.map fun q => if q.1 = k then (k, v) else q
  else m ++ [(k, v)]

/-- Line 279: `answer_map = {a.question_id: a.answer.lower() for a in answers}`. -/
def answerMap (answers : List OnboardingAnswer) : List (String × String) :=
  answers.foldl (fun m a => dictInsert m a.question_id (lowerStr a.answer)) []

/-- Line 287: `any(word in answer for word in criterion_lower.split())`. -/
def matchesCriterion (criterion_lower : String) (answer : String) : Bool :=
  (pyWords criterion_lower).any fun w => strContains answer w

/-- Python's builtin `min(a, b)`: the second argument wins only when
strictly smaller (the first argument is kept on ties). -/
def pyMin (a b : ℚ) : ℚ := if b < a then b else a

/-- `calculate_match_score(philosopher, answers)` (lines 265-292); the
inner `score += 1.0` per matching answer value is folded into a
per-criterion count. -/
def calculate_match_score (philosopher : Philosopher)
    (answers : List OnboardingAnswer) : ℚ :=
  let values := (answerMap answers).map Prod.snd
  let score : Nat := philosopher.matching_criteria.foldl
    (fun s criterion =>
      s + (values.filter (matchesCriterion (lowerStr criterion))).length)
    0
  let max_score : Nat :=
    if philosopher.matching_criteria = [] then 1
    else philosopher.matching_criteria.length
  pyMin 1 (mkRat score max_score)

/-- The claim's scoring formula, written from the spec's words: S sums,
over the profile's criterion phrases, the count of answers containing at
least one word of the phrase; N is the number of criterion phrases (1 when
none); the result is min(1, S/N). -/
def specMatchScore (philosopher : Philosopher)
    (answers : List OnboardingAnswer) : ℚ :=
  let S : Nat := philosopher.matching_criteria.foldl
    (fun s criterion =>
      s + (answers.filter fun a =>
        matchesCriterion (lowerStr criterion) (lowerStr a.answer)).length)
    0
  let N : Nat :=
    if philosopher.matching_criteria = [] then 1
    else philosopher.matching_criteria.length
  pyMin 1 (mkRat S N)

/-- Python `max`'s accumulator step: replace the current best only on a
strictly greater key. -/
def stepMax (b y : String × ℚ) : String × ℚ := if b.2 < y.2 then y else b

/-- Accumulator step for the maximum of the scores. -/
def accMax (m : ℚ) (y : String × ℚ) : ℚ := max m y.2

/-- Lines 234-241: the `scores` dict, keyed by `p["id"]`; only the score
takes part in the `max` selection, so the model keeps it as the value. -/
def scoresDict (philosophers : List Philosopher)
    (answers : List OnboardingAnswer) : List (String × ℚ) :=
  philosophers.foldl
    (fun m p => dictInsert m p.id (calculate_match_score p answers)) []

/-- `max(scores, key=lambda x: scores[x]["score"])` over the dict's
insertion order (`none` for the empty dict, where Python raises). -/
def pyMaxEntry : List (String × ℚ) → Option (String × ℚ)
  | [] => none
  | x :: xs => some (xs.foldl stepMax x)

/-- Line 244: the selected `best_id`. -/
def match_philosopher_best (philosophers : List Philosopher)
    (answers : List OnboardingAnswer) : Option String :=
  (pyMaxEntry (scoresDict philosophers answers)).map Prod.fst

/-- The maximum score of a non-empty entry list. -/
def maxScoreAux (x : ℚ) (xs : List (String × ℚ)) : ℚ := xs.foldl accMax x

/-- Written from the spec's words: the first entry whose score equals the
maximum score. -/
def firstMaxEntry : List (String × ℚ) → Option (String × ℚ)
  | [] => none
  | x :: xs => (x :: xs).find? fun q => q.2 = maxScoreAux x.2 xs

/-- Written from the spec's words: the first profile in input (iteration)
order whose score equals the maximum score. -/
def firstArgmax (philosophers : List Philosopher)
    (answers : List OnboardingAnswer) : Option String :=
  (firstMaxEntry
    (philosophers.map fun p => (p.id, calculate_match_score p answers))).map
    Prod.fst

/-! ### Concrete scorer inputs for the C6/C7/C8 counterexamples and
witnesses -/

/-- Profile with two criteria; scores differently under the code and the
claim's formula once question ids collide. -/
def p6 : Philosopher := { id := "p1", name := "One", matching_criteria := ["x", "zz"] }

/-- Two answers sharing one `question_id` — Python's dict comprehension
keeps only the last. -/
def ans6 : List OnboardingAnswer := [⟨"q1", "x"⟩, ⟨"q1", "x"⟩]

/-- Philosopher list with a duplicated id `"a"`: the `scores` dict keeps
id `"a"` at its first position but with the *last* profile's score. -/
def ps7 : List Philosopher :=
  [{ id := "a", name := "A1", matching_criteria := ["zz"] },
   { id := "b", name := "B", matching_criteria := ["x"] },
   { id := "a", name := "A2", matching_criteria := ["x"] }]

def ans7 : List OnboardingAnswer := [⟨"q", "x"⟩]

/-- Two distinct-id profiles with tied scores on `ans7`, for the C7
witness. -/
def psW7 : List Philosopher :=
  [{ id := "a", name := "A", matching_criteria := ["x"] },
   { id := "b", name := "B", matching_criteria := ["x"] }]

def p8 : Philosopher := { id := "p8", name := "Eight", matching_criteria := ["x", "y"] }

/-- Two orderings of answers sharing a `question_id`: the dict keeps the
last one, so reordering changes the kept answer. -/
def a81 : List OnboardingAnswer := [⟨"q", "x"⟩, ⟨"q", "zz"⟩]

def a82 : List OnboardingAnswer := [⟨"q", "zz"⟩, ⟨"q", "x"⟩]

def pW6 : Philosopher :=
  { id := "seneca", name := "Seneca", matching_criteria := ["duty leadership"] }

def pW6e : Philosopher := { id := "cato", name := "Cato", matching_criteria := [] }

def ansW6 : List OnboardingAnswer :=
  [⟨"q1", "I lead a team and value duty"⟩, ⟨"q2", "solitude"⟩]

def pW8 : Philosopher := { id := "m", name := "M", matching_criteria := ["alpha"] }

def asW81 : List OnboardingAnswer := [⟨"q1", "alpha"⟩, ⟨"q2", "beta"⟩]

def asW82 : List OnboardingAnswer := [⟨"q2", "beta"⟩, ⟨"q1", "alpha"⟩]

/-! ## Theorems -/

/-- Elements of `(x :: l).dropLast` are `x` or elements of `l.dropLast`. -/
theorem mem_dropLast_cons {α : Type} {c x : α} {l : List α}
    (h : c ∈ (x :: l).dropLast) : c = x ∨ c ∈ l.dropLast := by
  cases l with
  | nil => simp [List.dropLast] at h
  | cons y ys =>
    have e : (x :: y :: ys).dropLast = x :: (y :: ys).dropLast := rfl
    rw [e] at h
    exact List.mem_cons.mp h

/-- Loop invariant for `chunk_by_paragraph`: while the pending word count is
below `min_words` and matches the pending chunk, and every remaining
paragraph has at most `max_words - min_words + 1` words, every chunk the
loop emits except possibly the final flush lies in `[min_words, max_words]`. -/
theorem chunkLoop_bounds (mi ma : Nat) (h1 : 1 ≤ mi) (h2 : mi ≤ ma) :
    ∀ (paras : List (List String)) (cur : List String) (cnt : Nat),
      (∀ p ∈ paras, p.length ≤ ma - mi + 1) →
      cnt = cur.length → cnt < mi →
      ∀ c ∈ (chunkLoop mi ma paras cur cnt).dropLast,
        mi ≤ c.length ∧ c.length ≤ ma := by
  intro paras
  induction paras with
  | nil =>
    intro cur cnt _ _ _ c hc
    by_cases h : cur = [] <;> simp [chunkLoop, h, List.dropLast] at hc
  | cons p ps ih =>
    intro cur cnt hp hlen hlt c hc
    by_cases hp0 : p = []
    · rw [show chunkLoop mi ma (p :: ps) cur cnt = chunkLoop mi ma ps cur cnt from by
        simp [chunkLoop, processPara, hp0]] at hc
      exact ih cur cnt (fun q hq => hp q (List.mem_cons_of_mem _ hq)) hlen hlt c hc
    · have hpw : p.length ≤ ma - mi + 1 := hp p (List.mem_cons_self _ _)
      have hple : 1 ≤ p.length := by
        cases p with
        | nil => exact absurd rfl hp0
        | cons a t => simp
      have hle : cnt + p.length ≤ ma := by omega
      have hguard : ¬ (ma < cnt + p.length ∧ cur ≠ []) := fun h => absurd h.1 (by omega)
      by_cases hyield : mi ≤ cnt + p.length
      · have hstep : processPara mi ma cur cnt p = ([cur ++ p], [], 0) := by
          simp [processPara, hp0, hguard, hyield]
        rw [show chunkLoop mi ma (p :: ps) cur cnt
              = (cur ++ p) :: chunkLoop mi ma ps [] 0 from by
            simp [chunkLoop, hstep]] at hc
        rcases mem_dropLast_cons hc with h | h
        · subst h
          constructor
          · simpa [hlen] using hyield
          · simpa [hlen] using hle
        · exact ih [] 0 (fun q hq => hp q (List.mem_cons_of_mem _ hq)) rfl h1 c h
      · have hstep : processPara mi ma cur cnt p = ([], cur ++ p, cnt + p.length) := by
          simp [processPara, hp0, hguard, hyield]
        rw [show chunkLoop mi ma (p :: ps) cur cnt
              = chunkLoop mi ma ps (cur ++ p) (cnt + p.length) from by
            simp [chunkLoop, hstep]] at hc
        refine ih (cur ++ p) (cnt + p.length)
          (fun q hq => hp q (List.mem_cons_of_mem _ hq)) ?_ (by omega) c hc
        simp [hlen]

/-- C1 (counterexample): with `min_words = 2 ≤ 3 = max_words` and input
paragraphs `"a"` and `"b c d e"`, the chunker emits the one-word chunk
`"a"` first (flushed because adding the 4-word paragraph would exceed
`max_words`), so a non-final chunk falls below `min_words`, refuting the
claim that every chunk except possibly the last lies in
`[min_words, max_words]`. -/
theorem c1_counterexample :
    2 ≤ 3 ∧
      chunk_by_paragraph [["a"], ["b", "c", "d", "e"]] 2 3
          = [["a"], ["b", "c", "d", "e"]] ∧
      chunkBoundsOK 2 3 (chunk_by_paragraph [["a"], ["b", "c", "d", "e"]] 2 3)
          = false := by
  decide

/-- C1 (amended): if `1 ≤ min_words ≤ max_words` and every paragraph of the
input has at most `max_words - min_words + 1` words, then every chunk
emitted by `chunk_by_paragraph` except possibly the last has word count in
`[min_words, max_words]`. -/
theorem c1_chunk_bounds (mi ma : Nat) (paras : List (List String))
    (h1 : 1 ≤ mi) (h2 : mi ≤ ma)
    (hp : ∀ p ∈ paras, p.length ≤ ma - mi + 1) :
    chunkBoundsOK mi ma (chunk_by_paragraph paras mi ma) = true := by
  rw [chunkBoundsOK, List.all_eq_true]
  intro c hc
  have h := chunkLoop_bounds mi ma h1 h2 paras [] 0 hp rfl h1 c hc
  simp only [Bool.and_eq_true, decide_eq_true_eq]
  exact h

/-- C1 (witness): the amended theorem applied at `min_words = 2`,
`max_words = 5` and three small paragraphs. -/
theorem c1_chunk_bounds_witness :
    (1 ≤ 2 ∧ 2 ≤ 5 ∧
        ∀ p ∈ [["a", "b", "c"], ["d"], ["e", "f"]], List.length p ≤ 5 - 2 + 1) ∧
      chunkBoundsOK 2 5
          (chunk_by_paragraph [["a", "b", "c"], ["d"], ["e", "f"]] 2 5) = true :=
  ⟨⟨by decide, by decide, by decide⟩,
    c1_chunk_bounds 2 5 [["a", "b", "c"], ["d"], ["e", "f"]]
      (by decide) (by decide) (by decide)⟩

/-! ### Helper lemmas for the tagging claims -/

theorem pySet_ne_nil {α : Type} [DecidableEq α] {l : List α} (h : l ≠ []) :
    pySet l ≠ [] := by
  cases l with
  | nil => exact absurd rfl h
  | cons a t => simp [pySet, pySetAux]

theorem ite_default_ne_nil {α : Type} (l d : List α) [Decidable (l = [])]
    (hd : d ≠ []) : (if l = [] then d else l) ≠ [] := by
  split <;> simp_all

/-- The context-mapping sub-step itself never leaves either field empty
(the `normal` and all-times defaults). -/
theorem map_to_health_context_ne_nil (tags : PassageTags) :
    (map_to_health_context tags).stress_levels ≠ [] ∧
      (map_to_health_context tags).times_of_day ≠ [] := by
  simp only [map_to_health_context]
  exact ⟨pySet_ne_nil (ite_default_ne_nil _ _ (by simp)),
    pySet_ne_nil (ite_default_ne_nil _ _ (by simp))⟩

theorem clampRange (x : Int) :
    1 ≤ min 10 (max 1 x) ∧ min 10 (max 1 x) ≤ 10 :=
  ⟨le_min (by norm_num) (le_max_left 1 x), min_le_left _ _⟩

theorem assess_quotability_range (text : String) :
    1 ≤ assess_quotability text ∧ assess_quotability text ≤ 10 := clampRange _

theorem assess_comfort_range (text : String) :
    1 ≤ assess_comfort text ∧ assess_comfort text ≤ 10 := clampRange _

theorem assess_actionability_range (text : String) :
    1 ≤ assess_actionability text ∧ assess_actionability text ≤ 10 := clampRange _

/-! ### Claims C3, C5, C9, C10 -/

/-- C3 (counterexample): a passage carrying Project Gutenberg boilerplate is
returned by `tag_passage` with its empty health context untouched, so after
processing both `stress_levels` and `times_of_day` are empty — refuting the
claim that every passage processed by a tagging strategy ends up with
non-empty lists. -/
theorem c3_counterexample :
    (tag_passage gutenbergPassage).health_context.stress_levels = [] ∧
      (tag_passage gutenbergPassage).health_context.times_of_day = [] := by
  decide

/-- C3 (amended): (1) every passage whose text is free of Gutenberg
boilerplate gets non-empty `stress_levels` and `times_of_day` from the
rule-based `tag_passage`; (2) `apply_tags` on a non-empty tag dict yields
non-empty lists provided each of `stress_levels`/`times_of_day`, when the
key is present, holds at least one valid enum value (when absent the
defaults `["normal"]` / `["morning"]` apply).  Skipped passages (boilerplate
text, empty tag dict) keep their input health context, which may be empty. -/
theorem c3_health_nonempty :
    (∀ p : Passage, gutenbergBoilerplate p.text = false →
        (tag_passage p).health_context.stress_levels ≠ [] ∧
          (tag_passage p).health_context.times_of_day ≠ []) ∧
    (∀ (p : Passage) (t : TagDict),
        (∀ l, t.stress_levels = some l →
          l.any (fun s => (parseStressLevel s).isSome) = true) →
        (∀ l, t.times_of_day = some l →
          l.any (fun s => (parseTimeOfDay s).isSome) = true) →
        (apply_tags p (some t)).health_context.stress_levels ≠ [] ∧
          (apply_tags p (some t)).health_context.times_of_day ≠ []) := by
  constructor
  · intro p h
    simp only [tag_passage, h, Bool.false_eq_true, if_false]
    exact map_to_health_context_ne_nil _
  · intro p t hs ht
    simp only [apply_tags]
    constructor
    · cases hsl : t.stress_levels with
      | none => simp [hsl, parseStressLevel]
      | some l =>
        obtain ⟨a, ha, hpa⟩ := List.any_eq_true.mp (hs l hsl)
        simp only [hsl, Option.getD_some]
        intro hnil
        rw [List.filterMap_eq_nil_iff] at hnil
        rw [hnil a ha] at hpa
        simp at hpa
    · cases htl : t.times_of_day with
      | none => simp [htl, parseTimeOfDay]
      | some l =>
        obtain ⟨a, ha, hpa⟩ := List.any_eq_true.mp (ht l htl)
        simp only [htl, Option.getD_some]
        intro hnil
        rw [List.filterMap_eq_nil_iff] at hnil
        rw [hnil a ha] at hpa
        simp at hpa

/-- C3 (witness): the amended theorem applied to the scenario passage (rule
path) and to a concrete valid tag dict (provider path). -/
theorem c3_health_nonempty_witness :
    ((tag_passage c5passage).health_context.stress_levels ≠ [] ∧
        (tag_passage c5passage).health_context.times_of_day ≠ []) ∧
      ((apply_tags c5passage (some tC3)).health_context.stress_levels ≠ [] ∧
        (apply_tags c5passage (some tC3)).health_context.times_of_day ≠ []) :=
  ⟨c3_health_nonempty.1 c5passage (by decide),
    c3_health_nonempty.2 c5passage tC3
      (by intro l hl; simp [tC3] at hl; subst hl; decide)
      (by intro l hl; simp [tC3] at hl)⟩

/-- C5 (counterexample): on the scenario text, the rule-based tagger
assigns NO primary concept at all — none of `dichotomy_of_control`'s
keywords (`control`, `power over`, `up to us`, ...) occur in the text, so
the claimed `dichotomy_of_control` tag is absent. -/
theorem c5_counterexample :
    (tag_passage c5passage).tags.primary_concepts = [] ∧
      "dichotomy_of_control" ∉ (tag_passage c5passage).tags.primary_concepts := by
  decide

/-- C5 (amended): with `min_words = 5`, `max_words = 50` the generic
chunker emits exactly one chunk carrying the full scenario text (20 words),
and the rule-based tagger tags it with situation `anxiety`; it assigns no
primary concept (in particular not `dichotomy_of_control`, whose keyword
list has no hit in the text). -/
theorem c5_scenario :
    chunk_by_paragraph [pyWords c5text] 5 50 = [pyWords c5text] ∧
      joinWords (pyWords c5text) = c5text ∧
      "anxiety" ∈ (tag_passage c5passage).tags.situations ∧
      (tag_passage c5passage).tags.primary_concepts = [] := by
  decide

/-- C9: for every passage the rule-based tagger actually tags (its text is
free of the Gutenberg boilerplate that short-circuits `tag_passage`), the
produced tag lists respect the category caps 3/2/2/3/3 and the three
metadata scores lie in `[1, 10]`. -/
theorem c9_caps_and_ranges (p : Passage)
    (h : gutenbergBoilerplate p.text = false) :
    (tag_passage p).tags.primary_concepts.length ≤ 3 ∧
      (tag_passage p).tags.virtues.length ≤ 2 ∧
      (tag_passage p).tags.practices.length ≤ 2 ∧
      (tag_passage p).tags.situations.length ≤ 3 ∧
      (tag_passage p).tags.emotions.length ≤ 3 ∧
      1 ≤ (tag_passage p).metadata.quotability ∧
      (tag_passage p).metadata.quotability ≤ 10 ∧
      1 ≤ (tag_passage p).metadata.actionability ∧
      (tag_passage p).metadata.actionability ≤ 10 ∧
      1 ≤ (tag_passage p).metadata.comfort ∧
      (tag_passage p).metadata.comfort ≤ 10 := by
  simp only [tag_passage, h, Bool.false_eq_true, if_false]
  refine ⟨List.length_take_le _ _, List.length_take_le _ _,
    List.length_take_le _ _, List.length_take_le _ _, List.length_take_le _ _,
    ?_, ?_, ?_, ?_, ?_, ?_⟩
  · exact (assess_quotability_range _).1
  · exact (assess_quotability_range _).2
  · exact (assess_actionability_range _).1
  · exact (assess_actionability_range _).2
  · exact (assess_comfort_range _).1
  · exact (assess_comfort_range _).2

/-- C9 (witness): the caps/ranges theorem applied to the scenario passage. -/
theorem c9_caps_and_ranges_witness :
    gutenbergBoilerplate c5passage.text = false ∧
      ((tag_passage c5passage).tags.primary_concepts.length ≤ 3 ∧
        (tag_passage c5passage).tags.virtues.length ≤ 2 ∧
        (tag_passage c5passage).tags.practices.length ≤ 2 ∧
        (tag_passage c5passage).tags.situations.length ≤ 3 ∧
        (tag_passage c5passage).tags.emotions.length ≤ 3 ∧
        1 ≤ (tag_passage c5passage).metadata.quotability ∧
        (tag_passage c5passage).metadata.quotability ≤ 10 ∧
        1 ≤ (tag_passage c5passage).metadata.actionability ∧
        (tag_passage c5passage).metadata.actionability ≤ 10 ∧
        1 ≤ (tag_passage c5passage).metadata.comfort ∧
        (tag_passage c5passage).metadata.comfort ≤ 10) :=
  ⟨by decide, c9_caps_and_ranges c5passage (by decide)⟩

/-- C10: a passage whose text contains `"Project Gutenberg"`, `"START OF"`
or `"END OF"` is returned by the rule-based `tag_passage` completely
unchanged — tags, metadata, journey and health context keep their input
values. -/
theorem c10_gutenberg_frame (p : Passage)
    (h : gutenbergBoilerplate p.text = true) : tag_passage p = p := by
  simp [tag_passage, h]

/-- C10 (witness): the frame theorem applied to a concrete boilerplate
passage. -/
theorem c10_gutenberg_frame_witness :
    gutenbergBoilerplate gutenbergPassage.text = true ∧
      tag_passage gutenbergPassage = gutenbergPassage :=
  ⟨by decide, c10_gutenberg_frame gutenbergPassage (by decide)⟩

/-! ### Claims C2 and C4 (retrieval) -/

/-- C2 (code bug): when the candidate set is empty — here the unfiltered
vector search itself returned nothing — the handler does NOT answer 404:
the `HTTPException(404, "No matching quotes found")` raised inside the
`try` block is caught by `except Exception` and re-raised as a 500
"Search error".  The claim (and the code's own 404 raise) clearly intend a
NotFound response. -/
theorem c2_empty_candidates_give_500 :
    get_contextual_quote none "normal" [] =
      Except.error ⟨500, "Search error: 404: No matching quotes found"⟩ := by
  rfl

/-- C4: if the candidate set entering the stress-level filter stage (after
the philosopher filter) is non-empty but the stress filter would empty it,
the filter is skipped and the request succeeds with the passage built from
the head of the pre-filter candidate set — never a NotFound. -/
theorem c4_stress_filter_fallback (pid? : Option String) (sl : String)
    (matches0 : List Row)
    (h1 : philFiltered pid? matches0 ≠ [])
    (h2 : (philFiltered pid? matches0).filter (stressMatch sl) = []) :
    ∃ m ∈ philFiltered pid? matches0,
      get_contextual_quote pid? sl matches0 = Except.ok (rowToResponse m) := by
  have hs : stressFilterStage sl (philFiltered pid? matches0)
      = philFiltered pid? matches0 := by
    simp [stressFilterStage, h1, h2]
  cases hm : philFiltered pid? matches0 with
  | nil => exact absurd hm h1
  | cons m ms =>
    have hbody : quoteTryBody pid? sl matches0 = Except.ok (rowToResponse m) := by
      simp only [quoteTryBody]
      rw [hs, hm]
      simp [List.take]
    exact ⟨m, List.mem_cons_self _ _, by simp [get_contextual_quote, hbody]⟩

/-- C4 (witness): the fallback theorem applied to a single tagless
candidate row and stress level `"high"`, for which the stress filter
matches nothing. -/
theorem c4_stress_filter_fallback_witness :
    (philFiltered none [rC4] ≠ [] ∧
        (philFiltered none [rC4]).filter (stressMatch "high") = []) ∧
      ∃ m ∈ philFiltered none [rC4],
        get_contextual_quote none "high" [rC4] = Except.ok (rowToResponse m) :=
  ⟨⟨by decide, by decide⟩,
    c4_stress_filter_fallback none "high" [rC4] (by decide) (by decide)⟩


/-! ### Claims C6, C7, C8 (profile match scorer) -/

theorem foldl_dictInsert_eq {α β : Type} (key : α → String) (val : α → β) :
    ∀ (l : List α) (m : List (String × β)),
      (l.map key).Nodup →
      (∀ a ∈ l, ∀ q ∈ m, q.1 ≠ key a) →
      l.foldl (fun acc a => dictInsert acc (key a) (val a)) m
        = m ++ l.map fun a => (key a, val a) := by
  intro l
  induction l with
  | nil => intro m _ _; simp
  | cons a t ih =>
    intro m hnd hdisj
    have hstep : dictInsert m (key a) (val a) = m ++ [(key a, val a)] := by
      have hany : m.any (fun q => q.1 = key a) = false := by
        rw [List.any_eq_false]
        intro q hq
        simpa using hdisj a (List.mem_cons_self _ _) q hq
      simp [dictInsert, hany]
    have hnd' : (t.map key).Nodup := (List.nodup_cons.mp hnd).2
    have hka : key a ∉ t.map key := (List.nodup_cons.mp hnd).1
    have hdisj' : ∀ b ∈ t, ∀ q ∈ m ++ [(key a, val a)], q.1 ≠ key b := by
      intro b hb q hq
      rcases List.mem_append.mp hq with h | h
      · exact hdisj b (List.mem_cons_of_mem _ hb) q h
      · rcases List.mem_singleton.mp h with rfl
        intro hk
        have hk2 : key a = key b := hk
        exact hka (hk2 ▸ List.mem_map_of_mem key hb)
    calc (a :: t).foldl (fun acc x => dictInsert acc (key x) (val x)) m
        = t.foldl (fun acc x => dictInsert acc (key x) (val x))
            (m ++ [(key a, val a)]) := by rw [List.foldl_cons, hstep]
      _ = m ++ [(key a, val a)] ++ t.map fun x => (key x, val x) :=
          ih (m ++ [(key a, val a)]) hnd' hdisj'
      _ = m ++ (a :: t).map fun x => (key x, val x) := by simp

theorem answerMap_eq (answers : List OnboardingAnswer)
    (h : (answers.map OnboardingAnswer.question_id).Nodup) :
    answerMap answers
      = answers.map fun a => (a.question_id, lowerStr a.answer) := by
  simpa [answerMap] using
    foldl_dictInsert_eq OnboardingAnswer.question_id
      (fun a => lowerStr a.answer) answers [] h (by simp)

theorem foldl_add_congr {α : Type} (g₁ g₂ : α → Nat) (h : ∀ c, g₁ c = g₂ c) :
    ∀ (l : List α) (s : Nat),
      l.foldl (fun s c => s + g₁ c) s = l.foldl (fun s c => s + g₂ c) s := by
  intro l
  induction l with
  | nil => intro s; rfl
  | cons c cs ih => intro s; simp only [List.foldl_cons, h c, ih]

/-- C6 (counterexample): with duplicate question ids the dict
comprehension `answer_map` collapses the two answers into one, so the code
scores 1/2 while the claim's formula (counting answers) gives 1. -/
theorem c6_counterexample :
    calculate_match_score p6 ans6 ≠ specMatchScore p6 ans6 ∧
      calculate_match_score p6 ans6 = mkRat 1 2 ∧ specMatchScore p6 ans6 = 1 := by
  decide

/-- C6 (amended): for answer lists with pairwise-distinct question ids,
`calculate_match_score` equals the claim's formula min(1, S/N); a profile
with zero matching criteria scores exactly 0 for every answer list. -/
theorem c6_match_score (p : Philosopher) (answers : List OnboardingAnswer) :
    ((answers.map OnboardingAnswer.question_id).Nodup →
        calculate_match_score p answers = specMatchScore p answers) ∧
      (p.matching_criteria = [] → calculate_match_score p answers = 0) := by
  constructor
  · intro h
    have hv : (answerMap answers).map Prod.snd
        = answers.map fun a => lowerStr a.answer := by
      rw [answerMap_eq answers h, List.map_map]
      rfl
    simp only [calculate_match_score, specMatchScore, hv]
    exact congrArg
      (fun S : Nat => pyMin 1 (mkRat S
        (if p.matching_criteria = [] then 1 else p.matching_criteria.length)))
      (foldl_add_congr _ _
        (fun c => by rw [List.filter_map, List.length_map]; rfl)
        p.matching_criteria 0)
  · intro h
    simp only [calculate_match_score, h, List.foldl_nil, if_pos trivial]
    decide


/-- C6 (witness): the amended theorem applied to distinct-id answers and
to an empty-criteria profile. -/
theorem c6_match_score_witness :
    ((ansW6.map OnboardingAnswer.question_id).Nodup ∧
        calculate_match_score pW6 ansW6 = specMatchScore pW6 ansW6) ∧
      (pW6e.matching_criteria = [] ∧ calculate_match_score pW6e ansW6 = 0) :=
  ⟨⟨by decide, (c6_match_score pW6 ansW6).1 (by decide)⟩,
    ⟨rfl, (c6_match_score pW6e ansW6).2 rfl⟩⟩

theorem le_foldl_accMax : ∀ (xs : List (String × ℚ)) (b : ℚ),
    b ≤ xs.foldl accMax b := by
  intro xs
  induction xs with
  | nil => intro b; exact le_refl b
  | cons y ys ih =>
    intro b
    exact le_trans (le_max_left b y.2) (ih (max b y.2))

theorem pyMax_first : ∀ (xs : List (String × ℚ)) (x : String × ℚ),
    some (xs.foldl stepMax x)
      = (x :: xs).find? fun q => q.2 = maxScoreAux x.2 xs := by
  intro xs
  induction xs with
  | nil =>
    intro x
    simp [maxScoreAux, List.find?]
  | cons y ys ih =>
    intro x
    by_cases hxy : x.2 < y.2
    · have hstep : (y :: ys).foldl stepMax x = ys.foldl stepMax y := by
        simp [List.foldl_cons, stepMax, hxy]
      have hM : maxScoreAux x.2 (y :: ys) = maxScoreAux y.2 ys := by
        simp [maxScoreAux, List.foldl_cons, accMax, max_eq_right (le_of_lt hxy)]
      have hxM : ¬ (x.2 = maxScoreAux y.2 ys) := by
        have := le_foldl_accMax ys y.2
        have : x.2 < maxScoreAux y.2 ys := lt_of_lt_of_le hxy this
        exact ne_of_lt this
      rw [hstep, ih y, hM]
      exact (List.find?_cons_of_neg _ (by simpa using hxM)).symm
    · have hyx : y.2 ≤ x.2 := le_of_not_lt hxy
      have hstep : (y :: ys).foldl stepMax x = ys.foldl stepMax x := by
        simp [List.foldl_cons, stepMax, hxy]
      have hM : maxScoreAux x.2 (y :: ys) = maxScoreAux x.2 ys := by
        simp [maxScoreAux, List.foldl_cons, accMax, max_eq_left hyx]
      rw [hstep, ih x, hM]
      by_cases hx : x.2 = maxScoreAux x.2 ys
      · rw [List.find?_cons_of_pos _ (by simpa using hx),
          List.find?_cons_of_pos _ (by simpa using hx)]
      · have hy : ¬ (y.2 = maxScoreAux x.2 ys) := by
          intro hy
          have hxle : x.2 ≤ maxScoreAux x.2 ys := le_foldl_accMax ys x.2
          exact hx (le_antisymm hxle (hy ▸ hyx))
        rw [List.find?_cons_of_neg _ (by simpa using hx)]
        rw [show (List.find? (fun q => decide (q.2 = maxScoreAux x.2 ys)) (x :: y :: ys))
            = List.find? (fun q => decide (q.2 = maxScoreAux x.2 ys)) (y :: ys) from
          List.find?_cons_of_neg _ (by simpa using hx)]
        exact (List.find?_cons_of_neg _ (by simpa using hy)).symm

theorem scoresDict_eq (ps : List Philosopher) (answers : List OnboardingAnswer)
    (h : (ps.map Philosopher.id).Nodup) :
    scoresDict ps answers
      = ps.map fun p => (p.id, calculate_match_score p answers) := by
  simpa [scoresDict] using
    foldl_dictInsert_eq Philosopher.id
      (fun p => calculate_match_score p answers) ps [] h (by simp)

/-- C7 (counterexample): with a duplicated profile id the selection is
NOT the first profile in input order reaching the maximum score: the
`scores` dict keeps id "a" at its first position with the last "a"
profile's score, so `max` returns "a" although the first profile whose
score attains the maximum is "b". -/
theorem c7_counterexample :
    match_philosopher_best ps7 ans7 = some "a" ∧
      firstArgmax ps7 ans7 = some "b" ∧
      match_philosopher_best ps7 ans7 ≠ firstArgmax ps7 ans7 := by decide

/-- C7 (amended): when the profile ids are pairwise distinct, the selected
profile is exactly the first profile in input (iteration) order whose
score equals the maximum score — in particular the selection is a pure
function of the ordered profile list and the answers, hence identical
across runs. -/
theorem c7_deterministic_argmax (ps : List Philosopher) (answers : List OnboardingAnswer)
    (h : (ps.map Philosopher.id).Nodup) :
    match_philosopher_best ps answers = firstArgmax ps answers := by
  unfold match_philosopher_best firstArgmax
  rw [scoresDict_eq ps answers h]
  cases hps : ps.map (fun p => (p.id, calculate_match_score p answers)) with
  | nil => rfl
  | cons x xs =>
    simp only [pyMaxEntry, firstMaxEntry, pyMax_first xs x]


/-- C7 (witness): the amended theorem on two distinct-id profiles with
tied scores (both match the single answer): the first one wins. -/
theorem c7_deterministic_argmax_witness :
    (psW7.map Philosopher.id).Nodup ∧
      match_philosopher_best psW7 ans7 = firstArgmax psW7 ans7 :=
  ⟨by decide, c7_deterministic_argmax psW7 ans7 (by decide)⟩

/-- C8 (counterexample): with a repeated question id, permuting the answer
list changes which answer the dict keeps, and the score changes: 0 for one
order, 1/2 for the other. -/
theorem c8_counterexample :
    a81.Perm a82 ∧ calculate_match_score p8 a81 ≠ calculate_match_score p8 a82 := by
  decide

/-- C8 (amended): for answer lists with pairwise-distinct question ids,
`calculate_match_score` is invariant under permutation of the answers. -/
theorem c8_perm_invariant (p : Philosopher) (as1 as2 : List OnboardingAnswer)
    (hperm : as1.Perm as2)
    (h1 : (as1.map OnboardingAnswer.question_id).Nodup) :
    calculate_match_score p as1 = calculate_match_score p as2 := by
  have h2 : (as2.map OnboardingAnswer.question_id).Nodup :=
    ((hperm.map OnboardingAnswer.question_id).nodup_iff).mp h1
  have hv1 : (answerMap as1).map Prod.snd
      = as1.map fun a => lowerStr a.answer := by
    rw [answerMap_eq as1 h1, List.map_map]
    rfl
  have hv2 : (answerMap as2).map Prod.snd
      = as2.map fun a => lowerStr a.answer := by
    rw [answerMap_eq as2 h2, List.map_map]
    rfl
  have hpv : (as1.map fun a => lowerStr a.answer).Perm
      (as2.map fun a => lowerStr a.answer) := hperm.map _
  simp only [calculate_match_score, hv1, hv2]
  exact congrArg
    (fun S : Nat => pyMin 1 (mkRat S
      (if p.matching_criteria = [] then 1 else p.matching_criteria.length)))
    (foldl_add_congr _ _
      (fun c => (hpv.filter (matchesCriterion (lowerStr c))).length_eq)
      p.matching_criteria 0)


/-- C8 (witness): the permutation-invariance theorem applied to two
orderings of two distinct-id answers. -/
theorem c8_perm_invariant_witness :
    asW81.Perm asW82 ∧ (asW81.map OnboardingAnswer.question_id).Nodup ∧
      calculate_match_score pW8 asW81 = calculate_match_score pW8 asW82 :=
  ⟨by decide, by decide, c8_perm_invariant pW8 asW81 asW82 (by decide) (by decide)⟩

end Stoic
